import Mathlib

/-!
# Verification of the bg-ping connectivity prober

Shallow embedding of the two variants of the bg-ping program:

* the multi-target variant (`src/main.go`): one `pClient` per target, a
  registry map `map[int]pClient` built in `main`, `pingServer` demultiplexes
  inbound ICMP packets to registered clients by identifier, `pingClient`
  matches replies by identifier only and unconditionally advances its
  sequence and sleeps after the `select`;

* the single-target variant (`src/unnamed/part_000`): a global `outage`
  flag, `pingClient` matches replies by identifier and sequence, and only
  the matched-reply branch advances the sequence and sleeps.

Go `int` values are modelled as `Int`; Go strings are modelled as `String`
or `List Char` where character-level structure matters.
-/

namespace BgPing

/-- `pingPacket` struct: the value sent on a probe's control channel
(identical in both variants). -/
structure pingPacket where
  ID : Int
  Seq : Int
deriving DecidableEq, Repr

/-- The outcome of one `select` in `pingClient`: either a `pingPacket`
arrives on the control channel, or the 1900 ms `time.After` fires. -/
inductive Outcome where
  | reply (p : pingPacket)
  | timeout
deriving DecidableEq, Repr

/-- The kinds of outage events recorded by `pingClient` via `recordEvent`:
"Connectivity outage detected" and "Connectivity outage cleared". -/
inductive Event where
  | detected
  | cleared
deriving DecidableEq, Repr

/-! ## Multi-target variant (`src/main.go`) -/

/-- `pClient` struct of `src/main.go` (the `control` channel is represented
by the registry key under which the client is stored; see `pingServerStep`). -/
structure pClient where
  ID : Int
  ip : String
  outage : Bool
deriving DecidableEq, Repr

/-- The loop state of `src/main.go`'s `pingClient`: the by-value `client`
parameter (whose `outage` field the loop mutates locally) and the local
`processSeq` counter. -/
structure ClientState where
  client : pClient
  processSeq : Int
deriving DecidableEq, Repr

/-- One iteration of the `select` in `src/main.go`'s `pingClient`
(lines 137-152), from the `select` through the unconditional
`processSeq++` and `time.Sleep(900ms)` that follow it.
Returns the new loop state, the list of events recorded during the
iteration, and whether the 900 ms sleep was executed. -/
def pingClientStep (clientID : Int) (s : ClientState) (o : Outcome) :
    ClientState × List Event × Bool :=
  match o with
  | .reply p =>
      if p.ID = clientID then
        let evs := if s.client.outage then [Event.cleared] else []
        (⟨{ s.client with outage := false }, s.processSeq + 1⟩, evs, true)
      else
        (⟨s.client, s.processSeq + 1⟩, [], true)
  | .timeout =>
      let evs := if !s.client.outage then [Event.detected] else []
      (⟨{ s.client with outage := true }, s.processSeq + 1⟩, evs, true)

/-- Run `src/main.go`'s `pingClient` over a list of select outcomes,
collecting all recorded events. -/
def pingClientRun (clientID : Int) (s : ClientState) :
    List Outcome → ClientState × List Event
  | [] => (s, [])
  | o :: os =>
      let r := pingClientStep clientID s o
      let rest := pingClientRun clientID r.1 os
      (rest.1, r.2.1 ++ rest.2)

/-! ## Single-target variant (`src/unnamed/part_000`) -/

/-- The state of the single-target `pingClient` loop: the global `outage`
flag and the local `processSeq` counter (`processID` is fixed for the
life of the probe and passed separately). -/
structure SingleState where
  outage : Bool
  processSeq : Int
deriving DecidableEq, Repr

/-- One iteration of the `select` in `src/unnamed/part_000`'s `pingClient`
(lines 108-123).  A reply is acted upon only when `p.ID == processID &&
p.Seq == processSeq`; only that branch advances `processSeq` and sleeps
900 ms.  The timeout branch sets `outage` without advancing the sequence
or sleeping, and a non-matching reply changes nothing. -/
def pingClientStepSingle (processID : Int) (s : SingleState) (o : Outcome) :
    SingleState × List Event × Bool :=
  match o with
  | .reply p =>
      if p.ID = processID ∧ p.Seq = s.processSeq then
        let evs := if s.outage then [Event.cleared] else []
        (⟨false, s.processSeq + 1⟩, evs, true)
      else
        (s, [], false)
  | .timeout =>
      let evs := if !s.outage then [Event.detected] else []
      (⟨true, s.processSeq⟩, evs, false)

/-- Run the single-target `pingClient` over a list of select outcomes,
collecting all recorded events. -/
def pingClientRunSingle (processID : Int) (s : SingleState) :
    List Outcome → SingleState × List Event
  | [] => (s, [])
  | o :: os =>
      let r := pingClientStepSingle processID s o
      let rest := pingClientRunSingle processID r.1 os
      (rest.1, r.2.1 ++ rest.2)

/-! ## Receiver / demultiplexer (`pingServer`) -/

/-- The body of a parsed ICMP message, as discriminated by the Go type
switch `switch b := m.Body.(type)` in `pingServer`.  Only the `echo`
constructor (Go type `*icmp.Echo`) carries data the program uses. -/
inductive MessageBody where
  | echo (ID Seq : Int)
  | dstUnreach
  | timeExceeded
  | paramProb
  | extendedEchoRequest
  | extendedEchoReply
  | raw
deriving DecidableEq, Repr

/-- An inbound ICMPv4 packet that parses successfully: its type field,
code field, and (when the body carries them) identifier and sequence. -/
structure InboundICMP where
  icmpType : Nat
  code : Nat
  ID : Int
  Seq : Int
deriving DecidableEq, Repr

/-- Body selection performed by `icmp.ParseMessage(1, ...)`
(golang.org/x/net/icmp, protocol 1 = ICMPv4): its parse table maps both
`ipv4.ICMPTypeEchoReply` (0) and `ipv4.ICMPTypeEcho` (8) to `parseEcho`,
so both yield an `*icmp.Echo` body; destination unreachable (3), time
exceeded (11), parameter problem (12) and extended echo request/reply
(42/43) yield their own body types, and every other type yields a raw
default body. -/
def parseBody (m : InboundICMP) : MessageBody :=
  if m.icmpType = 0 ∨ m.icmpType = 8 then .echo m.ID m.Seq
  else if m.icmpType = 3 then .dstUnreach
  else if m.icmpType = 11 then .timeExceeded
  else if m.icmpType = 12 then .paramProb
  else if m.icmpType = 42 then .extendedEchoRequest
  else if m.icmpType = 43 then .extendedEchoReply
  else .raw

/-- The registry built in `src/main.go`'s `main`: `map[int]pClient`.
Each value's `control` channel is private to that entry, so a channel is
identified by the key it is stored under. -/
abbrev Registry := List (Int × pClient)

/-- One iteration of `src/main.go`'s `pingServer` (lines 99-113) after a
successful read and parse: the type switch delivers
`pingPacket{b.ID, b.Seq}` on `clients[b.ID].control` when the body is an
`*icmp.Echo` whose `ID` is a key of the map, and does nothing otherwise.
The result is `some (k, pkt)` when `pkt` is delivered on the channel of
the client registered under key `k`, and `none` when no delivery happens. -/
def pingServerStep (clients : Registry) (m : InboundICMP) :
    Option (Int × pingPacket) :=
  match parseBody m with
  | .echo id seq =>
      match List.lookup id clients with
      | some _ => some (id, { ID := id, Seq := seq })
      | none => none
  | _ => none

/-! ## Event sink (`recordEvent`) and timestamps -/

/-- Result of `logFile.WriteString`: number of bytes written, or an error. -/
inductive WriteResult where
  | ok (n : Nat)
  | error (e : String)
deriving DecidableEq, Repr

/-- `WriteResult.isError w` holds exactly when the write failed. -/
def WriteResult.isError : WriteResult → Bool
  | .ok _ => false
  | .error _ => true

/-- How a call to `recordEvent` ends: normally (`WriteString` succeeded,
`Sync` ran, control returns to the caller) or by process termination
(`log.Fatalf` prints the message and calls `os.Exit(1)`, never returning). -/
inductive RecordResult where
  | returned
  | fatalExit
deriving DecidableEq, Repr

/-- Go left-justified padding `%-Ns`: the string followed by spaces up to
minimum width `w`. -/
def padRight (w : Nat) (s : String) : String :=
  s ++ String.mk (List.replicate (w - s.length) ' ')

/-- The record formatted by `src/main.go`'s `recordEvent`:
`fmt.Sprintf("| %-80s| %-26s|\n", msg, timeStamp())`. -/
def formatRecord (msg ts : String) : String :=
  "| " ++ padRight 80 msg ++ "| " ++ padRight 26 ts ++ "|\n"

/-- `src/main.go`'s `recordEvent` (lines 80-87), with the file write
abstracted as a function from the written string to a `WriteResult`:
on write error, `log.Fatalf` terminates the process; otherwise the file
is synced and the call returns. -/
def recordEvent (write : String → WriteResult) (msg ts : String) :
    RecordResult :=
  match write (formatRecord msg ts) with
  | .error _ => .fatalExit
  | .ok _ => .returned

/-- Go decimal rendering `%d` of a nonnegative integer (digit characters,
most significant first), via the standard fuel-based digit expansion. -/
def goDecimal (n : Nat) : String :=
  String.mk (Nat.toDigits 10 n)

/-- Go zero-padded decimal `%0Nd` of a nonnegative integer: the decimal
digits left-padded with zeros to minimum width `w`. -/
def pad0 (w : Nat) (n : Nat) : String :=
  String.mk (List.replicate (w - (Nat.toDigits 10 n).length) '0' ++
    Nat.toDigits 10 n)

/-- The sub-second field of `timeStamp`: `%04d` applied to
`t.Nanosecond()/1000000`. -/
def msField (nanosecond : Nat) : String :=
  pad0 4 (nanosecond / 1000000)

/-- The date-and-time prefix of `timeStamp`, up to but excluding the
underscore: `%d-%02d-%02dT%02d:%02d:%02d`. -/
def dateTimePart (year month day hour minute second : Nat) : String :=
  goDecimal year ++ "-" ++ pad0 2 month ++ "-" ++ pad0 2 day ++ "T" ++
    pad0 2 hour ++ ":" ++ pad0 2 minute ++ ":" ++ pad0 2 second

/-- `timeStamp` of `src/main.go` (lines 50-53) and `src/unnamed/part_000`
(lines 72-75), applied to the components of the current local time:
`fmt.Sprintf("%d-%02d-%02dT%02d:%02d:%02d_%04d", t.Year(), t.Month(),
t.Day(), t.Hour(), t.Minute(), t.Second(), t.Nanosecond()/1000000)`. -/
def timeStamp (year month day hour minute second nanosecond : Nat) :
    String :=
  dateTimePart year month day hour minute second ++ "_" ++
    msField nanosecond

/-! ## IPv4 validation (`isValidIPv4`, both variants) -/

/-- `strings.Split(ip, ".")` for a one-character separator, over the
characters of the string: splits at every dot, keeping empty parts. -/
def splitOnDot : List Char → List (List Char)
  | [] => [[]]
  | c :: rest =>
      if c = '.' then [] :: splitOnDot rest
      else
        match splitOnDot rest with
        | [] => [[c]]
        | p :: ps => (c :: p) :: ps

/-- ASCII decimal digit test, as used by `strconv.ParseInt` in base 10. -/
def isDecDigit (c : Char) : Bool := '0' ≤ c && c ≤ '9'

/-- Value of a list of decimal digit characters, most significant first. -/
def decValue (cs : List Char) : Nat :=
  cs.foldl (fun a c => a * 10 + (c.toNat - 48)) 0

/-- `strconv.Atoi` (= `ParseInt(s, 10, 0)` with 64-bit `int`): an optional
single leading sign, then at least one ASCII digit and nothing else;
values outside the `int64` range return an error (`none`). -/
def atoi (s : List Char) : Option Int :=
  let signAndDigits : Bool × List Char :=
    match s with
    | '+' :: rest => (false, rest)
    | '-' :: rest => (true, rest)
    | _ => (false, s)
  let neg := signAndDigits.1
  let ds := signAndDigits.2
  if ds = [] then none
  else if ¬ ds.all isDecDigit then none
  else
    let n := decValue ds
    if neg then
      if n ≤ 2 ^ 63 then some (-(n : Int)) else none
    else
      if n < 2 ^ 63 then some (n : Int) else none

/-- The per-part check shared by both `isValidIPv4` variants: `Atoi`
succeeds and the value is not `< 0` and not `> 255`. -/
def partOK (x : List Char) : Bool :=
  match atoi x with
  | some i => !(i < 0 || i > 255)
  | none => false

/-- `isValidIPv4` of the single-target variant (`src/unnamed/part_000`,
lines 26-41): rejects when there are fewer than four dot-separated parts
(`len(parts) < 4`), then requires every part to pass `partOK`. -/
def isValidIPv4Single (ip : List Char) : Bool :=
  let parts := splitOnDot ip
  if parts.length < 4 then false
  else parts.all partOK

/-- `isValidIPv4` of the multi-target variant (`src/main.go`,
lines 33-48): rejects unless there are exactly four dot-separated parts
(`len(parts) != 4`), then requires every part to pass `partOK`. -/
def isValidIPv4Multi (ip : List Char) : Bool :=
  let parts := splitOnDot ip
  if parts.length ≠ 4 then false
  else parts.all partOK

/-! ## Orchestration of the multi-target variant (`main`) -/

/-- The registry built in `src/main.go`'s `main` (lines 175-183): for the
validated list of IPs, entry `id+1` holds a fresh `pClient` with
`ID = id+1`, the target's IP, and `outage = false`. -/
def buildPingClientList (ips : List String) : Registry :=
  ips.enum.map fun e =>
    ((e.1 : Int) + 1, { ID := (e.1 : Int) + 1, ip := e.2, outage := false })

/-- The running multi-target system: the registry map built in `main`,
and the goroutine-local loop state of each `pingClient`.  `main` starts
each goroutine as `go pingClient(connection, id, pingClientList[id],
logFile)`: `pingClientList[id]` is a map value, so the goroutine receives
a by-value copy of the `pClient` struct. -/
structure MultiSystem where
  registry : Registry
  locals : List (Int × ClientState)

/-- The system right after `main` starts all goroutines: the registry map,
and each goroutine's local state holding its own copy of the `pClient`
value and `processSeq = 1`. -/
def initSystem (ips : List String) : MultiSystem :=
  let reg := buildPingClientList ips
  { registry := reg
    locals := reg.map fun kc => (kc.1, { client := kc.2, processSeq := 1 }) }

/-- One select outcome delivered to the `pingClient` goroutine with the
given id.  Because the goroutine holds its `pClient` by value and the
program contains no write to `pingClientList` after the build loop, only
the goroutine-local state changes; the registry map is untouched. -/
def systemStep (sys : MultiSystem) (id : Int) (o : Outcome) : MultiSystem :=
  { sys with
      locals := sys.locals.map fun ks =>
        if ks.1 = id then (ks.1, (pingClientStep ks.1 ks.2 o).1) else ks }

/-- Run the multi-target system over a schedule of (goroutine id, select
outcome) pairs. -/
def systemRun (sys : MultiSystem) : List (Int × Outcome) → MultiSystem
  | [] => sys
  | s :: rest => systemRun (systemStep sys s.1 s.2) rest

/-! ## Theorems -/

/-- C1: Edge-only emission, for both variants.  The state `s` ranges over
every loop state, in particular over the state immediately before any step
of any run: an "outage detected" event is emitted by a wait step if and
only if the outage flag was false immediately before a timeout outcome,
and an "outage cleared" event is emitted if and only if the outage flag
was true immediately before a matching-reply outcome (identifier match in
the multi-target variant; identifier-and-sequence match in the
single-target variant).  Repeated timeouts while already in outage, and
replies while healthy, emit no event. -/
theorem edge_only_emission :
    (∀ (clientID : Int) (s : ClientState) (o : Outcome),
      (Event.detected ∈ (pingClientStep clientID s o).2.1 ↔
          s.client.outage = false ∧ o = Outcome.timeout) ∧
      (Event.cleared ∈ (pingClientStep clientID s o).2.1 ↔
          s.client.outage = true ∧
            ∃ p, o = Outcome.reply p ∧ p.ID = clientID)) ∧
    (∀ (processID : Int) (s : SingleState) (o : Outcome),
      (Event.detected ∈ (pingClientStepSingle processID s o).2.1 ↔
          s.outage = false ∧ o = Outcome.timeout) ∧
      (Event.cleared ∈ (pingClientStepSingle processID s o).2.1 ↔
          s.outage = true ∧
            ∃ p, o = Outcome.reply p ∧ p.ID = processID ∧
              p.Seq = s.processSeq)) := by
  constructor
  · intro clientID s o
    rcases o with p | _
    · by_cases h : p.ID = clientID <;>
        cases hc : s.client.outage <;>
          simp [pingClientStep, h, hc]
    · cases hc : s.client.outage <;> simp [pingClientStep, hc]
  · intro processID s o
    rcases o with p | _
    · by_cases h : p.ID = processID ∧ p.Seq = s.processSeq
      · cases hc : s.outage <;>
          simp [pingClientStepSingle, h, hc, h.1, h.2]
      · simp only [pingClientStepSingle, if_neg h]
        refine ⟨by simp, ?_⟩
        simp only [List.not_mem_nil, false_iff, not_and]
        intro _ hex
        rcases hex with ⟨q, hq, hid, hseq⟩
        obtain rfl : p = q := by injection hq
        exact h ⟨hid, hseq⟩
    · cases hc : s.outage <;> simp [pingClientStepSingle, hc]

/-- C2 counterexample: in the multi-target variant (`src/main.go`), a
packet agreeing on identifier alone IS treated as a match.  With client 7
in outage and outstanding sequence 1, the reply `{ID 7, Seq 99}` (wrong
sequence) clears the outage flag, emits "outage cleared", and lets the
sequence advance to 2. -/
theorem strict_correlation_counterexample :
    (pingClientStep 7 ⟨⟨7, "192.0.2.1", true⟩, 1⟩
        (Outcome.reply ⟨7, 99⟩)).1.client.outage = false ∧
    Event.cleared ∈ (pingClientStep 7 ⟨⟨7, "192.0.2.1", true⟩, 1⟩
        (Outcome.reply ⟨7, 99⟩)).2.1 ∧
    (pingClientStep 7 ⟨⟨7, "192.0.2.1", true⟩, 1⟩
        (Outcome.reply ⟨7, 99⟩)).1.processSeq = 2 := by
  refine ⟨rfl, ?_, rfl⟩
  simp [pingClientStep]

/-- C2 amended: strict identifier-and-sequence correlation holds only in
the single-target variant (`src/unnamed/part_000`), where a reply resolves
the outstanding request (clearing the outage state and advancing the
sequence) exactly when both its identifier and its sequence number match;
in the multi-target variant (`src/main.go`) the outage flag after a reply
is determined by the identifier test alone, regardless of sequence. -/
theorem strict_correlation_amended :
    (∀ (processID : Int) (s : SingleState) (p : pingPacket),
      ((pingClientStepSingle processID s (Outcome.reply p)).1.outage = false ∧
       (pingClientStepSingle processID s (Outcome.reply p)).1.processSeq =
         s.processSeq + 1) ↔
      (p.ID = processID ∧ p.Seq = s.processSeq)) ∧
    (∀ (clientID : Int) (s : ClientState) (p : pingPacket),
      (pingClientStep clientID s (Outcome.reply p)).1.client.outage =
        if p.ID = clientID then false else s.client.outage) := by
  constructor
  · intro processID s p
    by_cases h : p.ID = processID ∧ p.Seq = s.processSeq
    · simp [pingClientStepSingle, h]
    · simp only [pingClientStepSingle, if_neg h]
      constructor
      · intro hcon
        exact absurd hcon.2 (by omega)
      · intro hm
        exact absurd hm h
  · intro clientID s p
    by_cases h : p.ID = clientID <;> simp [pingClientStep, h]

/-- C3 counterexample: in the multi-target variant (`src/main.go`), the
`processSeq++` and `time.Sleep(900ms)` stand after the `select`, so a
timed-out iteration still advances the sequence (here from 1 to 2) and
still sleeps the 900 ms interval. -/
theorem timeout_branch_counterexample :
    (pingClientStep 7 ⟨⟨7, "192.0.2.1", false⟩, 1⟩
        Outcome.timeout).1.processSeq = 2 ∧
    (pingClientStep 7 ⟨⟨7, "192.0.2.1", false⟩, 1⟩
        Outcome.timeout).2.2 = true :=
  ⟨rfl, rfl⟩

/-- C3 amended: the claimed timeout behaviour holds only in the
single-target variant (`src/unnamed/part_000`): there a timeout neither
advances the sequence nor sleeps the 900 ms interval, and the sequence
advances (by exactly 1, followed by the 900 ms sleep) exactly on a
matched reply.  In the multi-target variant (`src/main.go`) every
outcome — timeout included — is followed by the sequence advance and the
900 ms sleep. -/
theorem timeout_branch_amended :
    (∀ (processID : Int) (s : SingleState),
      (pingClientStepSingle processID s Outcome.timeout).1.processSeq =
        s.processSeq ∧
      (pingClientStepSingle processID s Outcome.timeout).2.2 = false) ∧
    (∀ (processID : Int) (s : SingleState) (p : pingPacket),
      ((pingClientStepSingle processID s (Outcome.reply p)).1.processSeq =
          s.processSeq + 1 ∧
       (pingClientStepSingle processID s (Outcome.reply p)).2.2 = true) ↔
      (p.ID = processID ∧ p.Seq = s.processSeq)) ∧
    (∀ (clientID : Int) (s : ClientState) (o : Outcome),
      (pingClientStep clientID s o).1.processSeq = s.processSeq + 1 ∧
      (pingClientStep clientID s o).2.2 = true) := by
  refine ⟨fun processID s => ⟨rfl, rfl⟩, ?_, ?_⟩
  · intro processID s p
    by_cases h : p.ID = processID ∧ p.Seq = s.processSeq
    · simp [pingClientStepSingle, h]
    · simp only [pingClientStepSingle, if_neg h]
      constructor
      · intro hcon
        exact absurd hcon.1 (by omega)
      · intro hm
        exact absurd hm h
  · intro clientID s o
    rcases o with p | _
    · by_cases h : p.ID = clientID <;> simp [pingClientStep, h]
    · exact ⟨rfl, rfl⟩

/-- Helper: when the inbound type is neither 0 (echo reply) nor 8 (echo
request), the parsed body is not an `*icmp.Echo` and `pingServer`
delivers nothing. -/
lemma pingServerStep_not_echo (clients : Registry) (m : InboundICMP)
    (h : ¬(m.icmpType = 0 ∨ m.icmpType = 8)) :
    pingServerStep clients m = none := by
  simp only [pingServerStep, parseBody, if_neg h]
  split_ifs <;> rfl

/-- Helper: when the inbound type is 0 or 8, the parsed body is an
`*icmp.Echo` and `pingServer` delivers exactly when the identifier is a
key of the registry map. -/
lemma pingServerStep_echo (clients : Registry) (m : InboundICMP)
    (h : m.icmpType = 0 ∨ m.icmpType = 8) :
    pingServerStep clients m =
      match List.lookup m.ID clients with
      | some _ => some (m.ID, { ID := m.ID, Seq := m.Seq })
      | none => none := by
  simp [pingServerStep, parseBody, if_pos h]

/-- C4 counterexample: an inbound ICMP echo REQUEST (type 8) whose
identifier is registered is parsed to an `*icmp.Echo` body by
`icmp.ParseMessage(1, ...)` and is therefore delivered to the probe's
channel, not discarded: the type switch in `pingServer` inspects only the
Go body type, which echo requests and echo replies share. -/
theorem echo_reply_restriction_counterexample :
    pingServerStep [((7 : Int), ⟨7, "192.0.2.1", false⟩)]
        ⟨8, 0, 7, 1⟩ = some (7, { ID := 7, Seq := 1 }) := by
  rfl

/-- C4 amended: the Receiver delivers a parsed inbound packet to a
Probe's channel exactly when the packet's parsed body is an Echo body —
which happens for ICMPv4 type 0 (echo reply) AND type 8 (echo request) —
and the identifier is registered; every inbound ICMP message of any other
type is discarded silently.  Echo requests are not discarded. -/
theorem echo_body_restriction_amended :
    ∀ (clients : Registry) (m : InboundICMP),
      (pingServerStep clients m).isSome = true ↔
        ((m.icmpType = 0 ∨ m.icmpType = 8) ∧
          (List.lookup m.ID clients).isSome = true) := by
  intro clients m
  by_cases h : m.icmpType = 0 ∨ m.icmpType = 8
  · rw [pingServerStep_echo clients m h]
    cases hl : List.lookup m.ID clients <;> simp [h]
  · rw [pingServerStep_not_echo clients m h]
    simp [h]

/-- C5: routing correctness of `pingServer` in `src/main.go`: whenever a
delivery happens, it is on the channel of the client registered under the
packet's own identifier and carries `pingPacket{ID, Seq}` of the inbound
packet; an identifier absent from the registry map leads to no delivery,
hence to no state change in any probe. -/
theorem routing_correctness :
    ∀ (clients : Registry) (m : InboundICMP) (k : Int) (pkt : pingPacket),
      (pingServerStep clients m = some (k, pkt) →
        k = m.ID ∧ (List.lookup k clients).isSome = true ∧
          pkt = { ID := m.ID, Seq := m.Seq }) ∧
      (List.lookup m.ID clients = none →
        pingServerStep clients m = none) := by
  intro clients m k pkt
  constructor
  · intro hd
    by_cases h : m.icmpType = 0 ∨ m.icmpType = 8
    · rw [pingServerStep_echo clients m h] at hd
      cases hl : List.lookup m.ID clients with
      | none => rw [hl] at hd; cases hd
      | some c =>
          rw [hl] at hd
          simp only [Option.some.injEq, Prod.mk.injEq] at hd
          obtain ⟨hk, hp⟩ := hd
          subst hk
          exact ⟨rfl, by simp [hl], hp.symm⟩
    · rw [pingServerStep_not_echo clients m h] at hd
      cases hd
  · intro hl
    by_cases h : m.icmpType = 0 ∨ m.icmpType = 8
    · rw [pingServerStep_echo clients m h, hl]
    · exact pingServerStep_not_echo clients m h

/-- C5 witness: with client 7 registered and an inbound echo reply
`{type 0, ID 7, Seq 2}`, `pingServer` delivers `pingPacket{7, 2}` on the
channel stored under key 7. -/
theorem routing_correctness_witness :
    (7 : Int) = (⟨0, 0, 7, 2⟩ : InboundICMP).ID ∧
    (List.lookup (7 : Int)
        [((7 : Int), (⟨7, "192.0.2.1", false⟩ : pClient))]).isSome = true ∧
    ({ ID := 7, Seq := 2 } : pingPacket) =
      { ID := (⟨0, 0, 7, 2⟩ : InboundICMP).ID,
        Seq := (⟨0, 0, 7, 2⟩ : InboundICMP).Seq } :=
  (routing_correctness [((7 : Int), ⟨7, "192.0.2.1", false⟩)]
      ⟨0, 0, 7, 2⟩ 7 { ID := 7, Seq := 2 }).1 rfl

/-- Helper: a multi-target probe already in outage records no event on any
further timeout, however many follow. -/
lemma pingClientRun_timeouts_silent (clientID : Int) :
    ∀ (n : Nat) (c : pClient) (seq : Int), c.outage = true →
      (pingClientRun clientID ⟨c, seq⟩
        (List.replicate n Outcome.timeout)).2 = [] := by
  intro n
  induction n with
  | zero => intro c seq _; rfl
  | succ n ih =>
      intro c seq h
      simp only [List.replicate_succ, pingClientRun, pingClientStep, h]
      simpa using ih { c with outage := true } (seq + 1) rfl

/-- Helper: a single-target probe already in outage records no event on
any further timeout. -/
lemma pingClientRunSingle_timeouts_silent (processID : Int) :
    ∀ (n : Nat) (seq : Int),
      (pingClientRunSingle processID ⟨true, seq⟩
        (List.replicate n Outcome.timeout)).2 = [] := by
  intro n
  induction n with
  | zero => intro seq; rfl
  | succ n ih =>
      intro seq
      simp only [List.replicate_succ, pingClientRunSingle,
        pingClientStepSingle]
      simpa using ih seq

/-- C6: timeout determinism, both variants.  A probe that starts healthy
and never receives a value on its inbound channel — i.e. every one of its
`n+1` wait steps ends in timeout — records exactly the single event
"outage detected" (on the first timeout) and nothing else. -/
theorem timeout_determinism :
    (∀ (clientID : Int) (ip : String) (seq : Int) (n : Nat),
      (pingClientRun clientID ⟨⟨clientID, ip, false⟩, seq⟩
        (List.replicate (n + 1) Outcome.timeout)).2 = [Event.detected]) ∧
    (∀ (processID : Int) (seq : Int) (n : Nat),
      (pingClientRunSingle processID ⟨false, seq⟩
        (List.replicate (n + 1) Outcome.timeout)).2 = [Event.detected]) := by
  constructor
  · intro clientID ip seq n
    simp only [List.replicate_succ, pingClientRun, pingClientStep]
    simpa using pingClientRun_timeouts_silent clientID n
      ⟨clientID, ip, true⟩ (seq + 1) rfl
  · intro processID seq n
    simp only [List.replicate_succ, pingClientRunSingle,
      pingClientStepSingle]
    simpa using pingClientRunSingle_timeouts_silent processID n seq

/-- C7: sink failure is fatal: a call to `recordEvent` ends in
`log.Fatalf`-driven process termination exactly when the write of the
formatted event record to the log file fails; in particular `recordEvent`
never returns control to its caller after a failed write. -/
theorem sink_failure_fatal :
    ∀ (write : String → WriteResult) (msg ts : String),
      recordEvent write msg ts = RecordResult.fatalExit ↔
        (write (formatRecord msg ts)).isError = true := by
  intro write msg ts
  cases hw : write (formatRecord msg ts) <;>
    simp [recordEvent, hw, WriteResult.isError]

set_option maxRecDepth 8000

/-- Helper: Go `%04d` renders any value below 1000 — in particular any
millisecond value — as exactly four characters. -/
lemma pad0_four_length : ∀ m < 1000, (pad0 4 m).length = 4 := by decide

/-- C8 counterexample: the sub-second field of `timeStamp` is formatted
with `%04d`, not `%03d`: at 5 ms past the second the rendered timestamp
ends in `_0005`, i.e. the portion after the underscore has four digits,
not exactly three as claimed. -/
theorem timestamp_format_counterexample :
    timeStamp 2026 10 11 1 2 3 5000000 = "2026-10-11T01:02:03_0005" ∧
    msField 5000000 = "0005" ∧
    ("0005" : String).length = 4 :=
  ⟨rfl, rfl, rfl⟩

/-- C8 amended: every timestamp renders local time as
`YYYY-MM-DDTHH:MM:SS_mmmm`: the date-time prefix followed by an
underscore and the millisecond value zero-padded to exactly FOUR digits
(`%04d`), not three. -/
theorem timestamp_format_amended :
    ∀ (y mo d h mi s ns : Nat), ns < 1000000000 →
      timeStamp y mo d h mi s ns =
        dateTimePart y mo d h mi s ++ "_" ++ msField ns ∧
      (msField ns).length = 4 := by
  intro y mo d h mi s ns hns
  refine ⟨rfl, ?_⟩
  have hms : ns / 1000000 < 1000 :=
    Nat.div_lt_of_lt_mul (by omega)
  exact pad0_four_length (ns / 1000000) hms

/-- C8 witness: the amended statement at 2026-10-11 01:02:03 and
5000000 ns. -/
theorem timestamp_format_amended_witness :
    timeStamp 2026 10 11 1 2 3 5000000 =
      dateTimePart 2026 10 11 1 2 3 ++ "_" ++ msField 5000000 ∧
    (msField 5000000).length = 4 :=
  timestamp_format_amended 2026 10 11 1 2 3 5000000 (by decide)

/-- Helper: running the multi-target system never changes the registry
map: each `pingClient` goroutine holds its `pClient` by value and no code
after the build loop in `main` writes `pingClientList`. -/
lemma systemRun_registry :
    ∀ (steps : List (Int × Outcome)) (sys : MultiSystem),
      (systemRun sys steps).registry = sys.registry := by
  intro steps
  induction steps with
  | nil => intro sys; rfl
  | cons s rest ih => intro sys; exact ih (systemStep sys s.1 s.2)

/-- Helper: every entry the build loop in `main` puts into
`pingClientList` has `outage = false`. -/
lemma buildPingClientList_outage (ips : List String) :
    ∀ e ∈ buildPingClientList ips, e.2.outage = false := by
  intro e he
  simp only [buildPingClientList, List.mem_map] at he
  obtain ⟨x, _, rfl⟩ := he
  rfl

/-- Helper: a successful lookup in an association list all of whose
entries have a false outage flag yields a client with a false outage
flag. -/
lemma registry_lookup_outage :
    ∀ (l : Registry) (k : Int) (c : pClient),
      (∀ e ∈ l, e.2.outage = false) →
      List.lookup k l = some c → c.outage = false := by
  intro l
  induction l with
  | nil => intro k c _ h; cases h
  | cons a t ih =>
      intro k c hl h
      obtain ⟨k2, v2⟩ := a
      simp only [List.lookup] at h
      cases hbeq : (k == k2) with
      | true =>
          simp only [hbeq] at h
          cases h
          exact hl (k2, c) (List.mem_cons_self _ _)
      | false =>
          simp only [hbeq] at h
          exact ih k c (fun e he => hl e (List.mem_cons_of_mem _ he)) h

/-- C9: frame property of the multi-target variant: `pingClient` receives
its `pClient` struct by value, so reply and timeout handling mutate only
the goroutine-local copy of the outage flag.  Under any schedule of
outcomes delivered to any goroutines, the registry map built in `main` is
unchanged, and the `outage` field of every `pClient` value stored in it
remains `false`. -/
theorem registry_outage_frame :
    ∀ (ips : List String) (steps : List (Int × Outcome)) (k : Int)
      (c : pClient),
      (systemRun (initSystem ips) steps).registry =
        buildPingClientList ips ∧
      (List.lookup k (systemRun (initSystem ips) steps).registry =
          some c → c.outage = false) := by
  intro ips steps k c
  have hreg : (systemRun (initSystem ips) steps).registry =
      buildPingClientList ips :=
    systemRun_registry steps (initSystem ips)
  refine ⟨hreg, ?_⟩
  intro hl
  rw [hreg] at hl
  exact registry_lookup_outage (buildPingClientList ips) k c
    (buildPingClientList_outage ips) hl

/-- C9 witness: one target, one delivered timeout: the registry is
unchanged and the registered client's outage flag is still `false`. -/
theorem registry_outage_frame_witness :
    (systemRun (initSystem ["192.0.2.1"])
        [((1 : Int), Outcome.timeout)]).registry =
      buildPingClientList ["192.0.2.1"] ∧
    ({ ID := 1, ip := "192.0.2.1", outage := false } : pClient).outage =
      false := by
  have h := registry_outage_frame ["192.0.2.1"]
    [((1 : Int), Outcome.timeout)] 1 ⟨1, "192.0.2.1", false⟩
  exact ⟨h.1, h.2 (by rfl)⟩

/-- C10: the single-target `isValidIPv4` rejects only inputs with fewer
than four dot-separated parts, so it accepts `"1.2.3.4.5"` — five parts,
each a decimal in [0, 255] — while the multi-target `isValidIPv4`
requires exactly four parts and returns `false` on every string with more
than four dot-separated parts. -/
theorem ipv4_variant_part_count :
    (isValidIPv4Single ("1.2.3.4.5".toList) = true ∧
     (splitOnDot ("1.2.3.4.5".toList)).length = 5 ∧
     (splitOnDot ("1.2.3.4.5".toList)).all partOK = true) ∧
    (∀ s : List Char, 4 < (splitOnDot s).length →
      isValidIPv4Multi s = false) := by
  constructor
  · exact ⟨by decide, by decide, by decide⟩
  · intro s h
    have h4 : (splitOnDot s).length ≠ 4 := by omega
    simp [isValidIPv4Multi, h4]

/-- C10 witness: the multi-target `isValidIPv4` rejects `"1.2.3.4.5"`. -/
theorem ipv4_variant_part_count_witness :
    isValidIPv4Multi ("1.2.3.4.5".toList) = false :=
  ipv4_variant_part_count.2 ("1.2.3.4.5".toList) (by decide)

end BgPing
